import Mathlib

/-!
Verification development for a Flask + OpenTelemetry telemetry demo service
(src/app.py).  The four HTTP scenario handlers and the background cadence
loop are shallowly embedded as producers of an explicit operation trace
(span open/close, attribute writes, exception records, status writes,
counter increments, log emissions, sleeps) together with the HTTP response
they return.  Span state is recovered by replaying the trace; the metric
counter is modelled as per-label-set accumulation over a global trace, and
concurrency as an interleaving relation over per-unit traces.
-/

/-- Span kinds used by the app (SpanKind.SERVER for routes,
SpanKind.INTERNAL for the background loop). -/
inductive SpanKind
  | SERVER
  | INTERNAL
deriving DecidableEq, Repr

/-- OpenTelemetry span status codes. -/
inductive StatusCode
  | UNSET
  | OK
  | ERROR
deriving DecidableEq, Repr

/-- Log severities the app emits (logger.info / logger.warning / logger.error). -/
inductive LogLevel
  | INFO
  | WARNING
  | ERROR
deriving DecidableEq, Repr

/-- Scalar attribute / log-field values: strings, Python ints, Python floats
(modelled as rationals). -/
inductive Scalar
  | str (s : String)
  | int (n : ℤ)
  | rat (q : ℚ)
deriving DecidableEq, Repr

/-- The context carrier of one span: its trace and span identifiers
(opaque Python ints). -/
structure SpanContext where
  trace_id : ℤ
  span_id : ℤ
deriving DecidableEq, Repr

/-- One observable operation performed during a unit of work. -/
inductive Op
  | openSpan (name : String) (kind : SpanKind)
  | setAttr (key : String) (value : Scalar)
  | recordException (ty : String) (msg : String)
  | setStatus (code : StatusCode) (msg : String)
  | count (metric : String) (labels : List (String × String))
  | log (level : LogLevel) (message : String) (fields : List (String × Scalar))
  | sleep (seconds : ℚ)
  | closeSpan
deriving DecidableEq, Repr

/-- An HTTP response: body string and status code (Flask defaults a bare
string return to status 200). -/
structure Response where
  body : String
  status : ℕ
deriving DecidableEq, Repr

/-- Python exceptions that can arise in the handlers. -/
inductive PyExc
  | zeroDivisionError (msg : String)
  | connectionError (msg : String)
deriving DecidableEq, Repr

/-- Python str(e) on an exception: its message. -/
def PyExc.toMessage : PyExc → String
  | .zeroDivisionError m => m
  | .connectionError m => m

/-- The Python type name of an exception, as record_exception stores it. -/
def PyExc.typeName : PyExc → String
  | .zeroDivisionError _ => "ZeroDivisionError"
  | .connectionError _ => "ConnectionError"

/-- How one handler execution can end: with an explicit return, by falling
off the end of the function body (Python would return None), or with an
uncaught exception escaping to the transport layer.  In every case the
operation trace performed up to that point is kept. -/
inductive HandlerOutcome
  | returned (ops : List Op) (resp : Response)
  | fellThrough (ops : List Op)
  | raised (ops : List Op) (e : PyExc)
deriving DecidableEq, Repr

/-- The operation trace of an outcome. -/
def HandlerOutcome.ops : HandlerOutcome → List Op
  | .returned ops _ => ops
  | .fellThrough ops => ops
  | .raised ops _ => ops

/-- The HTTP response of an outcome, when one was returned. -/
def HandlerOutcome.response : HandlerOutcome → Option Response
  | .returned _ resp => some resp
  | .fellThrough _ => none
  | .raised _ _ => none

/-- Whether the handler ended with an explicit return. -/
def HandlerOutcome.isReturned : HandlerOutcome → Bool
  | .returned _ _ => true
  | .fellThrough _ => false
  | .raised _ _ => false

/-- Python int() truncation toward zero, on rationals. -/
def pyInt (q : ℚ) : ℤ :=
  if 0 ≤ q then ⌊q⌋ else ⌈q⌉

/-- Python 3 division a / b: true division, raising ZeroDivisionError when
b = 0 (with CPython's message for integer operands). -/
def pyDiv (a b : ℤ) : Except PyExc ℚ :=
  if b = 0 then .error (.zeroDivisionError "division by zero")
  else .ok ((a : ℚ) / (b : ℚ))

/-- Python raise: the statement always produces its exception. -/
def pyRaise (e : PyExc) : Except PyExc Unit := .error e

/-- CPython random.uniform(a, b) = a + (b - a) * random(), where random()
draws u uniformly from [0, 1).  The draw u is passed in explicitly. -/
def random_uniform (a b u : ℚ) : ℚ := a + (b - a) * u

/-- Handler for route "/" (src/app.py, hello): span "hello-span" kind SERVER;
attributes endpoint, custom.status; sleep uniform(0.1, 0.3); attribute
simulated_latency_ms = int(sleep_time * 1000); counter increment with label
endpoint=/; INFO log with trace_id, span_id, endpoint, latency_ms; returns
a fixed 200 response.  ctx is the span's freshly allocated context and u the
random draw in [0, 1). -/
def hello (ctx : SpanContext) (u : ℚ) : HandlerOutcome :=
  let sleep_time : ℚ := random_uniform (1/10) (3/10) u
  .returned
    [ .openSpan "hello-span" .SERVER,
      .setAttr "endpoint" (.str "/"),
      .setAttr "custom.status" (.str "success"),
      .sleep sleep_time,
      .setAttr "simulated_latency_ms" (.int (pyInt (sleep_time * 1000))),
      .count "http_requests_total" [("endpoint", "/")],
      .log .INFO "Request handled"
        [("trace_id", .int ctx.trace_id),
         ("span_id", .int ctx.span_id),
         ("endpoint", .str "/"),
         ("latency_ms", .int (pyInt (sleep_time * 1000)))],
      .closeSpan ]
    ⟨"Hello from Flask with OTEL Traces, Metrics & Logs!", 200⟩

/-- Handler for route "/error" (src/app.py, trigger_error): span
"simulate-error" kind SERVER; attributes endpoint, job, env; then 1 / 0
inside try, with except ZeroDivisionError recording the exception, setting
status ERROR with str(e), emitting an ERROR log (trace_id, error.type,
error.message - no span_id) and returning 500.  If the division did not
raise, or raised something else, the except clause would not run. -/
def trigger_error (ctx : SpanContext) : HandlerOutcome :=
  let pre : List Op :=
    [ .openSpan "simulate-error" .SERVER,
      .setAttr "endpoint" (.str "/error"),
      .setAttr "job" (.str "failure_simulation"),
      .setAttr "env" (.str "test") ]
  match pyDiv 1 0 with
  | .ok _ => .fellThrough (pre ++ [.closeSpan])
  | .error e =>
    match e with
    | .zeroDivisionError msg =>
        .returned
          (pre ++
            [ .recordException "ZeroDivisionError" msg,
              .setStatus .ERROR msg,
              .log .ERROR "Error route exception"
                [("trace_id", .int ctx.trace_id),
                 ("error.type", .str "ZeroDivisionError"),
                 ("error.message", .str msg)],
              .closeSpan ])
          ⟨"Simulated error occurred!", 500⟩
    | e => .raised (pre ++ [.closeSpan]) e

/-- Handler for route "/timeout" (src/app.py, simulate_timeout): span
"simulate-timeout" kind SERVER; attributes endpoint, custom.status; fixed
5.5 second sleep; attribute timeout_latency_ms = int(sleep_time * 1000);
counter increment with label endpoint=/timeout; WARNING log (trace_id,
latency, status - no span_id); returns a fixed 200 response. -/
def simulate_timeout (ctx : SpanContext) : HandlerOutcome :=
  let sleep_time : ℚ := 11/2
  .returned
    [ .openSpan "simulate-timeout" .SERVER,
      .setAttr "endpoint" (.str "/timeout"),
      .setAttr "custom.status" (.str "delayed"),
      .sleep sleep_time,
      .setAttr "timeout_latency_ms" (.int (pyInt (sleep_time * 1000))),
      .count "http_requests_total" [("endpoint", "/timeout")],
      .log .WARNING "Simulated timeout"
        [("trace_id", .int ctx.trace_id),
         ("latency", .rat sleep_time),
         ("status", .str "delayed")],
      .closeSpan ]
    ⟨"Simulated long request complete", 200⟩

/-- Handler for route "/db-failure" (src/app.py, db_failure): span
"simulate-db-failure" kind SERVER; attributes endpoint, db.system,
db.operation, custom.status; then raise ConnectionError inside try, with
except Exception (catching any exception) recording it, setting status
ERROR with str(e), emitting an ERROR log (trace_id, db.system, db.status -
no span_id) and returning 500. -/
def db_failure (ctx : SpanContext) : HandlerOutcome :=
  let pre : List Op :=
    [ .openSpan "simulate-db-failure" .SERVER,
      .setAttr "endpoint" (.str "/db-failure"),
      .setAttr "db.system" (.str "mysql"),
      .setAttr "db.operation" (.str "SELECT"),
      .setAttr "custom.status" (.str "db_error") ]
  match pyRaise (.connectionError "Unable to connect to MySQL database") with
  | .ok _ => .fellThrough (pre ++ [.closeSpan])
  | .error e =>
      .returned
        (pre ++
          [ .recordException e.typeName e.toMessage,
            .setStatus .ERROR e.toMessage,
            .log .ERROR "Database error"
              [("trace_id", .int ctx.trace_id),
               ("db.system", .str "mysql"),
               ("db.status", .str "connection_failed")],
            .closeSpan ])
        ⟨"Database connection error simulated", 500⟩

/-- One iteration of the background loop (src/app.py,
generate_traces_and_metrics): span "rranjan_background_transaction" kind
INTERNAL; attribute job=rranjan_test_task; counter increment with label
endpoint=/background; INFO log with trace_id, span_id, task; sleep 2
seconds; close.  ctx is the iteration's freshly allocated span context. -/
def generate_traces_and_metrics_tick (ctx : SpanContext) : List Op :=
  [ .openSpan "rranjan_background_transaction" .INTERNAL,
    .setAttr "job" (.str "rranjan_test_task"),
    .count "http_requests_total" [("endpoint", "/background")],
    .log .INFO "Background transaction running"
      [("trace_id", .int ctx.trace_id),
       ("span_id", .int ctx.span_id),
       ("task", .str "rranjan_background_transaction")],
    .sleep 2,
    .closeSpan ]

/-- The first n iterations of the unbounded background loop, with ctxs
giving the span context freshly allocated for each iteration. -/
def generate_traces_and_metrics (ctxs : ℕ → SpanContext) (n : ℕ) : List Op :=
  (List.range n).flatMap fun i => generate_traces_and_metrics_tick (ctxs i)

/-- Writing one attribute into an attribute map (assoc list): keys are
unique, a later write to an existing key overwrites in place. -/
def setAttrL : List (String × Scalar) → String → Scalar → List (String × Scalar)
  | [], k, v => [(k, v)]
  | (k0, v0) :: rest, k, v =>
      if k0 = k then (k, v) :: rest else (k0, v0) :: setAttrL rest k v

/-- The span record reconstructed from a unit of work's operation trace. -/
structure Span where
  name : String
  kind : SpanKind
  context : SpanContext
  attributes : List (String × Scalar)
  status : StatusCode
  statusMessage : String
  recordedExceptions : List (String × String)
  closed : Bool
deriving DecidableEq, Repr

/-- How one operation updates the span record (counter increments, log
emissions and sleeps do not touch the span). -/
def applySpanOp (s : Span) : Op → Span
  | .openSpan n k => { s with name := n, kind := k }
  | .setAttr k v => { s with attributes := setAttrL s.attributes k v }
  | .recordException t m =>
      { s with recordedExceptions := s.recordedExceptions ++ [(t, m)] }
  | .setStatus c m => { s with status := c, statusMessage := m }
  | .count _ _ => s
  | .log _ _ _ => s
  | .sleep _ => s
  | .closeSpan => { s with closed := true }

/-- The span produced by replaying a unit of work's trace against a fresh
span whose context carrier is ctx (status starts UNSET). -/
def runSpan (ctx : SpanContext) (ops : List Op) : Span :=
  ops.foldl applySpanOp
    { name := "", kind := .INTERNAL, context := ctx, attributes := [],
      status := .UNSET, statusMessage := "", recordedExceptions := [],
      closed := false }

/-- The field maps of the log records emitted in a trace, in emission order. -/
def logRecords (ops : List Op) : List (List (String × Scalar)) :=
  ops.filterMap fun o =>
    match o with
    | .log _ _ f => some f
    | _ => none

/-- Whether an operation is a counter increment. -/
def isCount : Op → Bool
  | .count _ _ => true
  | _ => false

/-- Whether an operation is an attribute write. -/
def isSetAttr : Op → Bool
  | .setAttr _ _ => true
  | _ => false

/-- Whether an operation is a log emission. -/
def isLog : Op → Bool
  | .log _ _ _ => true
  | _ => false

/-- Whether an operation is a status write. -/
def isSetStatus : Op → Bool
  | .setStatus _ _ => true
  | _ => false

/-- Whether an operation is an exception record. -/
def isRecordException : Op → Bool
  | .recordException _ _ => true
  | _ => false

/-- Split a trace at its first counter increment: the operations before it,
the metric name and labels, and the operations after it. -/
def splitAtCount : List Op → Option (List Op × String × List (String × String) × List Op)
  | [] => none
  | .count n L :: rest => some ([], n, L, rest)
  | o :: rest =>
      match splitAtCount rest with
      | some (pre, n, L, post) => some (o :: pre, n, L, post)
      | none => none

/-- The trace performs exactly one increment of http_requests_total, with
the given labels, after every attribute write and before every log
emission. -/
def incrementsOnceBetween (ops : List Op) (labels : List (String × String)) : Bool :=
  match splitAtCount ops with
  | some (pre, n, L, post) =>
      decide (n = "http_requests_total") && decide (L = labels) &&
      pre.all (fun o => !(isLog o)) &&
      post.all (fun o => !(isCount o) && !(isSetAttr o))
  | none => false

/-- The ordering phase of an operation within a unit of work: attribute
writes before counter increments before log emissions before span close;
other operations are unconstrained. -/
def opPhase : Op → Option ℕ
  | .setAttr _ _ => some 1
  | .count _ _ => some 2
  | .log _ _ _ => some 3
  | .closeSpan => some 4
  | _ => none

/-- The phases of the constrained operations never decrease along the
trace, starting from the given phase. -/
def phasesMonotoneFrom (cur : ℕ) : List Op → Bool
  | [] => true
  | o :: rest =>
      match opPhase o with
      | none => phasesMonotoneFrom cur rest
      | some p => cur ≤ p && phasesMonotoneFrom p rest

/-- The span close, once it occurs, is the last operation of the trace. -/
def closeIsLast : List Op → Bool
  | [] => true
  | .closeSpan :: rest => rest.isEmpty
  | _ :: rest => closeIsLast rest

/-- A predicate holds of every log record in a list (structural conjunction,
no binders). -/
def ForallRecords (P : List (String × Scalar) → Prop) : List (List (String × Scalar)) → Prop
  | [] => True
  | f :: rest => P f ∧ ForallRecords P rest

/-- A counter cell: metric name together with its label set.  Modelled from
the spec: the Metric Counter entity accumulates Metric Events per distinct
label set, atomically (its implementation lives in the OpenTelemetry SDK,
outside this repository's files). -/
abbrev MetricKey := String × List (String × String)

/-- Whether an operation is an increment of exactly this counter cell. -/
def isCountFor (k : MetricKey) : Op → Bool
  | .count n L => decide (k = (n, L))
  | _ => false

/-- How many increments of cell k a trace contains. -/
def countKey (tr : List Op) (k : MetricKey) : ℕ := tr.countP (isCountFor k)

/-- One atomic counter step: an increment bumps its own cell by 1, every
other operation leaves the accumulator unchanged. -/
def counterStep (c : MetricKey → ℕ) : Op → MetricKey → ℕ
  | .count n L => fun k => if k = (n, L) then c k + 1 else c k
  | _ => c

/-- The accumulated counter after executing a serialized global trace
atomically, step by step, from the accumulation init. -/
def counterValue (init : MetricKey → ℕ) (tr : List Op) : MetricKey → ℕ :=
  tr.foldl counterStep init

/-- tr is an interleaving of the per-unit traces ls: each step either emits
the head of one unit's remaining trace or discards an exhausted unit, so
every unit's operations appear in tr in their original relative order. -/
inductive Interleaving : List (List Op) → List Op → Prop
  | nil : Interleaving [] []
  | consEmpty {ls tr} : Interleaving ls tr → Interleaving ([] :: ls) tr
  | consHead {x xs ls tr} :
      Interleaving (xs :: ls) tr → Interleaving ((x :: xs) :: ls) (x :: tr)
  | rotate {l ls tr} : Interleaving (ls ++ [l]) tr → Interleaving (l :: ls) tr

/-- Counter accumulation is the initial value plus the number of increments
of that cell in the serialized trace: atomic accumulation loses no update,
whatever the order of the trace. -/
theorem counterValue_eq_countKey (init : MetricKey → ℕ) (tr : List Op) (k : MetricKey) :
    counterValue init tr k = init k + countKey tr k := by
  induction tr generalizing init with
  | nil => simp [counterValue, countKey]
  | cons o rest ih =>
      have hstep : counterValue init (o :: rest) k
          = counterValue (counterStep init o) rest k := rfl
      rw [hstep, ih]
      simp only [countKey, List.countP_cons]
      cases o with
      | count n L =>
          by_cases hk : k = (n, L)
          · simp [counterStep, isCountFor, countKey, hk]
            omega
          · simp [counterStep, isCountFor, countKey, hk]
      | openSpan n ki => simp [counterStep, isCountFor, countKey]
      | setAttr a b => simp [counterStep, isCountFor, countKey]
      | recordException a b => simp [counterStep, isCountFor, countKey]
      | setStatus a b => simp [counterStep, isCountFor, countKey]
      | log a b c => simp [counterStep, isCountFor, countKey]
      | sleep s => simp [counterStep, isCountFor, countKey]
      | closeSpan => simp [counterStep, isCountFor, countKey]

/-- An interleaving preserves, cell by cell, the total number of counter
increments contributed by the interleaved units. -/
theorem interleaving_countKey {ls : List (List Op)} {tr : List Op}
    (h : Interleaving ls tr) (k : MetricKey) :
    countKey tr k = (ls.map fun l => countKey l k).sum := by
  induction h with
  | nil => rfl
  | consEmpty _ ih => simpa [countKey] using ih
  | consHead _ ih =>
      simp only [countKey, List.countP_cons, List.map_cons, List.sum_cons] at ih ⊢
      omega
  | rotate _ ih =>
      simp only [List.map_append, List.sum_append, List.map_cons, List.sum_cons,
        List.map_nil, List.sum_nil] at ih ⊢
      omega

/-- Sequential composition is one interleaving: run the first unit to
completion, then interleave the rest. -/
theorem interleaving_seq {ls : List (List Op)} {tr : List Op} (l : List Op)
    (h : Interleaving ls tr) : Interleaving (l :: ls) (l ++ tr) := by
  induction l with
  | nil => exact Interleaving.consEmpty h
  | cons x xs ih => exact Interleaving.consHead ih

/-- C1 (counterexample): the claim says every one of the four scenario
handlers increments http_requests_total by exactly 1 with its endpoint
label, but at a concrete execution the /error and /db-failure handlers
perform zero counter increments (for their labels, and indeed none at all). -/
theorem error_routes_have_no_counter_increment :
    countKey (HandlerOutcome.ops (trigger_error ⟨1, 2⟩))
      ("http_requests_total", [("endpoint", "/error")]) = 0 ∧
    countKey (HandlerOutcome.ops (db_failure ⟨1, 2⟩))
      ("http_requests_total", [("endpoint", "/db-failure")]) = 0 ∧
    (HandlerOutcome.ops (trigger_error ⟨1, 2⟩)).all (fun o => !(isCount o)) = true ∧
    (HandlerOutcome.ops (db_failure ⟨1, 2⟩)).all (fun o => !(isCount o)) = true :=
  ⟨rfl, rfl, rfl, rfl⟩

/-- C1 (amended): only the baseline / handler, the slow /timeout handler and
the background tick increment http_requests_total - each exactly once, with
label set {endpoint: its path}, after every attribute write and before the
log emission; the /error and /db-failure handlers perform no counter
increment at all. -/
theorem counter_increment_placement (ctx : SpanContext) (u : ℚ) :
    incrementsOnceBetween (HandlerOutcome.ops (hello ctx u)) [("endpoint", "/")] = true ∧
    incrementsOnceBetween (HandlerOutcome.ops (simulate_timeout ctx)) [("endpoint", "/timeout")] = true ∧
    incrementsOnceBetween (generate_traces_and_metrics_tick ctx) [("endpoint", "/background")] = true ∧
    (HandlerOutcome.ops (trigger_error ctx)).all (fun o => !(isCount o)) = true ∧
    (HandlerOutcome.ops (db_failure ctx)).all (fun o => !(isCount o)) = true :=
  ⟨rfl, rfl, rfl, rfl, rfl⟩

/-- C2 (counterexample): the claim says every log record emitted under an
active span carries both trace_id and span_id, but the single log record of
a concrete /error execution has no span_id field at all. -/
theorem error_log_lacks_span_id :
    logRecords (HandlerOutcome.ops (trigger_error ⟨1, 2⟩)) =
      [[("trace_id", Scalar.int 1),
        ("error.type", Scalar.str "ZeroDivisionError"),
        ("error.message", Scalar.str "division by zero")]] ∧
    List.lookup "span_id"
      [("trace_id", Scalar.int 1),
       ("error.type", Scalar.str "ZeroDivisionError"),
       ("error.message", Scalar.str "division by zero")] = (none : Option Scalar) :=
  ⟨rfl, rfl⟩

/-- C2 (amended): every log record of every unit of work carries the active
span's trace_id; span_id is additionally carried (and equal to the span's)
only by the baseline / handler's and the background tick's records, while
the /error, /timeout and /db-failure records carry no span_id field; the
replayed span's context is exactly the unit's own carrier. -/
theorem logs_carry_trace_context (ctx : SpanContext) (u : ℚ) :
    ForallRecords (fun f =>
        List.lookup "trace_id" f = some (.int ctx.trace_id) ∧
        List.lookup "span_id" f = some (.int ctx.span_id))
      (logRecords (HandlerOutcome.ops (hello ctx u))) ∧
    ForallRecords (fun f =>
        List.lookup "trace_id" f = some (.int ctx.trace_id) ∧
        List.lookup "span_id" f = some (.int ctx.span_id))
      (logRecords (generate_traces_and_metrics_tick ctx)) ∧
    ForallRecords (fun f =>
        List.lookup "trace_id" f = some (.int ctx.trace_id) ∧
        List.lookup "span_id" f = none)
      (logRecords (HandlerOutcome.ops (trigger_error ctx))) ∧
    ForallRecords (fun f =>
        List.lookup "trace_id" f = some (.int ctx.trace_id) ∧
        List.lookup "span_id" f = none)
      (logRecords (HandlerOutcome.ops (simulate_timeout ctx))) ∧
    ForallRecords (fun f =>
        List.lookup "trace_id" f = some (.int ctx.trace_id) ∧
        List.lookup "span_id" f = none)
      (logRecords (HandlerOutcome.ops (db_failure ctx))) ∧
    (runSpan ctx (HandlerOutcome.ops (hello ctx u))).context = ctx ∧
    (runSpan ctx (generate_traces_and_metrics_tick ctx)).context = ctx ∧
    (runSpan ctx (HandlerOutcome.ops (trigger_error ctx))).context = ctx ∧
    (runSpan ctx (HandlerOutcome.ops (simulate_timeout ctx))).context = ctx ∧
    (runSpan ctx (HandlerOutcome.ops (db_failure ctx))).context = ctx :=
  ⟨⟨⟨rfl, rfl⟩, trivial⟩, ⟨⟨rfl, rfl⟩, trivial⟩, ⟨⟨rfl, rfl⟩, trivial⟩,
   ⟨⟨rfl, rfl⟩, trivial⟩, ⟨⟨rfl, rfl⟩, trivial⟩, rfl, rfl, rfl, rfl, rfl⟩

/-- C3: for every / execution with a uniform draw u in [0, 1), the span
attribute simulated_latency_ms is an integer in [100, 300); and every
/timeout execution sets timeout_latency_ms to exactly 5500. -/
theorem latency_attribute_bounds (ctx : SpanContext) (u : ℚ)
    (h0 : 0 ≤ u) (h1 : u < 1) :
    (∃ v : ℤ,
        List.lookup "simulated_latency_ms"
          (runSpan ctx (HandlerOutcome.ops (hello ctx u))).attributes
          = some (.int v) ∧ 100 ≤ v ∧ v < 300) ∧
    List.lookup "timeout_latency_ms"
      (runSpan ctx (HandlerOutcome.ops (simulate_timeout ctx))).attributes
      = some (.int 5500) := by
  constructor
  · refine ⟨pyInt (random_uniform (1/10) (3/10) u * 1000), rfl, ?_, ?_⟩
    · have hq : (100 : ℚ) ≤ random_uniform (1/10) (3/10) u * 1000 := by
        unfold random_uniform; nlinarith
      have hnn : (0 : ℚ) ≤ random_uniform (1/10) (3/10) u * 1000 := by linarith
      unfold pyInt
      rw [if_pos hnn]
      exact Int.le_floor.mpr (by exact_mod_cast hq)
    · have hq : random_uniform (1/10) (3/10) u * 1000 < 300 := by
        unfold random_uniform; nlinarith
      have hnn : (0 : ℚ) ≤ random_uniform (1/10) (3/10) u * 1000 := by
        unfold random_uniform; nlinarith
      unfold pyInt
      rw [if_pos hnn]
      exact_mod_cast Int.floor_lt.mpr (by exact_mod_cast hq)
  · show some (Scalar.int (pyInt (11/2 * 1000))) = some (Scalar.int 5500)
    norm_num [pyInt]

/-- C3 (witness): the bounds instantiated at the concrete draw u = 1/2. -/
theorem latency_attribute_bounds_witness :
    (∃ v : ℤ,
        List.lookup "simulated_latency_ms"
          (runSpan ⟨1, 2⟩ (HandlerOutcome.ops (hello ⟨1, 2⟩ (1/2)))).attributes
          = some (.int v) ∧ 100 ≤ v ∧ v < 300) ∧
    List.lookup "timeout_latency_ms"
      (runSpan ⟨1, 2⟩ (HandlerOutcome.ops (simulate_timeout ⟨1, 2⟩))).attributes
      = some (.int 5500) :=
  latency_attribute_bounds ⟨1, 2⟩ (1/2) (by norm_num) (by norm_num)

/-- C4: /error always returns 500 with body "Simulated error occurred!" and
closes its span with status ERROR and the non-empty message "division by
zero", the triggering ZeroDivisionError having been recorded; /db-failure
always returns 500 with body "Database connection error simulated" and
closes its span with status ERROR and the non-empty message of its
ConnectionError, likewise recorded. -/
theorem error_routes_return_500_with_error_status (ctx : SpanContext) :
    HandlerOutcome.response (trigger_error ctx)
      = some ⟨"Simulated error occurred!", 500⟩ ∧
    (runSpan ctx (HandlerOutcome.ops (trigger_error ctx))).status = .ERROR ∧
    (runSpan ctx (HandlerOutcome.ops (trigger_error ctx))).statusMessage
      = "division by zero" ∧
    "division by zero" ≠ "" ∧
    (runSpan ctx (HandlerOutcome.ops (trigger_error ctx))).recordedExceptions
      = [("ZeroDivisionError", "division by zero")] ∧
    (runSpan ctx (HandlerOutcome.ops (trigger_error ctx))).closed = true ∧
    HandlerOutcome.response (db_failure ctx)
      = some ⟨"Database connection error simulated", 500⟩ ∧
    (runSpan ctx (HandlerOutcome.ops (db_failure ctx))).status = .ERROR ∧
    (runSpan ctx (HandlerOutcome.ops (db_failure ctx))).statusMessage
      = "Unable to connect to MySQL database" ∧
    "Unable to connect to MySQL database" ≠ "" ∧
    (runSpan ctx (HandlerOutcome.ops (db_failure ctx))).recordedExceptions
      = [("ConnectionError", "Unable to connect to MySQL database")] ∧
    (runSpan ctx (HandlerOutcome.ops (db_failure ctx))).closed = true :=
  ⟨rfl, rfl, rfl, by decide, rfl, rfl, rfl, rfl, rfl, by decide, rfl, rfl⟩

/-- C5: / and /timeout always return 200 with their fixed bodies, close
their spans with status still UNSET (treated as OK for export; OK itself is
never set, so the disjunction holds by its UNSET side), and never set
status ERROR nor record any exception. -/
theorem success_routes_return_200_without_error (ctx : SpanContext) (u : ℚ) :
    HandlerOutcome.response (hello ctx u)
      = some ⟨"Hello from Flask with OTEL Traces, Metrics & Logs!", 200⟩ ∧
    HandlerOutcome.response (simulate_timeout ctx)
      = some ⟨"Simulated long request complete", 200⟩ ∧
    ((runSpan ctx (HandlerOutcome.ops (hello ctx u))).status = .UNSET ∨
      (runSpan ctx (HandlerOutcome.ops (hello ctx u))).status = .OK) ∧
    ((runSpan ctx (HandlerOutcome.ops (simulate_timeout ctx))).status = .UNSET ∨
      (runSpan ctx (HandlerOutcome.ops (simulate_timeout ctx))).status = .OK) ∧
    (HandlerOutcome.ops (hello ctx u)).all
      (fun o => !(isSetStatus o) && !(isRecordException o)) = true ∧
    (HandlerOutcome.ops (simulate_timeout ctx)).all
      (fun o => !(isSetStatus o) && !(isRecordException o)) = true ∧
    (runSpan ctx (HandlerOutcome.ops (hello ctx u))).closed = true ∧
    (runSpan ctx (HandlerOutcome.ops (simulate_timeout ctx))).closed = true :=
  ⟨rfl, rfl, Or.inl rfl, Or.inl rfl, rfl, rfl, rfl, rfl⟩

/-- C6 (counterexample): the claim says each background iteration opens a
span named "background_transaction" and sets job=background_task, but a
concrete tick's span is named "rranjan_background_transaction" and its job
attribute is "rranjan_test_task". -/
theorem background_span_name_mismatch :
    (runSpan ⟨1, 2⟩ (generate_traces_and_metrics_tick ⟨1, 2⟩)).name
      = "rranjan_background_transaction" ∧
    "rranjan_background_transaction" ≠ "background_transaction" ∧
    List.lookup "job" (runSpan ⟨1, 2⟩ (generate_traces_and_metrics_tick ⟨1, 2⟩)).attributes
      = some (.str "rranjan_test_task") ∧
    Scalar.str "rranjan_test_task" ≠ Scalar.str "background_task" :=
  ⟨rfl, by decide, rfl, by decide⟩

/-- C6 (amended): every background iteration performs, in this order: open
a span named "rranjan_background_transaction" with kind INTERNAL, set
attribute job=rranjan_test_task, increment the counter with label
endpoint=/background, log INFO "Background transaction running" with a task
field, sleep a fixed 2 seconds, close the span; the tick's span carries the
iteration's own freshly allocated context, so ticks with carriers distinct
from a request's never share that request's span context. -/
theorem background_tick_sequence (ctx : SpanContext) :
    generate_traces_and_metrics_tick ctx =
      [ .openSpan "rranjan_background_transaction" .INTERNAL,
        .setAttr "job" (.str "rranjan_test_task"),
        .count "http_requests_total" [("endpoint", "/background")],
        .log .INFO "Background transaction running"
          [("trace_id", .int ctx.trace_id),
           ("span_id", .int ctx.span_id),
           ("task", .str "rranjan_background_transaction")],
        .sleep 2,
        .closeSpan ] ∧
    (runSpan ctx (generate_traces_and_metrics_tick ctx)).context = ctx ∧
    (runSpan ctx (generate_traces_and_metrics_tick ctx)).kind = .INTERNAL ∧
    (∀ rctx : SpanContext, ∀ u : ℚ, ctx ≠ rctx →
      (runSpan ctx (generate_traces_and_metrics_tick ctx)).context
        ≠ (runSpan rctx (HandlerOutcome.ops (hello rctx u))).context) ∧
    List.lookup "task"
      ((logRecords (generate_traces_and_metrics_tick ctx)).headD [])
      = some (.str "rranjan_background_transaction") :=
  ⟨rfl, rfl, rfl, fun _ _ h => h, rfl⟩

/-- C7: within every unit of work (each of the four handler executions and
the background tick), the constrained operations appear in the order
attribute-writes, then the counter increment, then the log emission, then
the span close (each constraint vacuous when the unit lacks the operation),
and the span close is the last operation of the trace. -/
theorem unit_of_work_operation_order (ctx : SpanContext) (u : ℚ) :
    phasesMonotoneFrom 0 (HandlerOutcome.ops (hello ctx u)) = true ∧
    closeIsLast (HandlerOutcome.ops (hello ctx u)) = true ∧
    phasesMonotoneFrom 0 (HandlerOutcome.ops (trigger_error ctx)) = true ∧
    closeIsLast (HandlerOutcome.ops (trigger_error ctx)) = true ∧
    phasesMonotoneFrom 0 (HandlerOutcome.ops (simulate_timeout ctx)) = true ∧
    closeIsLast (HandlerOutcome.ops (simulate_timeout ctx)) = true ∧
    phasesMonotoneFrom 0 (HandlerOutcome.ops (db_failure ctx)) = true ∧
    closeIsLast (HandlerOutcome.ops (db_failure ctx)) = true ∧
    phasesMonotoneFrom 0 (generate_traces_and_metrics_tick ctx) = true ∧
    closeIsLast (generate_traces_and_metrics_tick ctx) = true :=
  ⟨rfl, rfl, rfl, rfl, rfl, rfl, rfl, rfl, rfl, rfl⟩

/-- The counter cell the baseline / handler increments. -/
def helloKey : MetricKey := ("http_requests_total", [("endpoint", "/")])

/-- One / execution contributes exactly one increment to its cell. -/
theorem countKey_hello_ops (ctx : SpanContext) (u : ℚ) :
    countKey (HandlerOutcome.ops (hello ctx u)) helloKey = 1 := rfl

/-- A background tick contributes no increment to the / cell. -/
theorem countKey_tick_ops (ctx : SpanContext) :
    countKey (generate_traces_and_metrics_tick ctx) helloKey = 0 := rfl

/-- C8: for every N, any atomic serialization (interleaving) of N
concurrent / executions together with any number of background ticks
increases the accumulated counter for cell (http_requests_total,
{endpoint: /}) by exactly N: no update is lost. -/
theorem counter_increases_by_n (N M : ℕ) (ctxs : ℕ → SpanContext) (us : ℕ → ℚ)
    (bgctxs : ℕ → SpanContext) (init : MetricKey → ℕ) (tr : List Op)
    (h : Interleaving
      (((List.range N).map fun i => HandlerOutcome.ops (hello (ctxs i) (us i))) ++
        ((List.range M).map fun j => generate_traces_and_metrics_tick (bgctxs j))) tr) :
    counterValue init tr helloKey = init helloKey + N := by
  rw [counterValue_eq_countKey, interleaving_countKey h helloKey]
  simp only [List.map_append, List.sum_append, List.map_map, Function.comp_def,
    countKey_hello_ops, countKey_tick_ops, List.map_const', List.sum_replicate,
    List.length_range, smul_eq_mul, mul_one, mul_zero, add_zero]

/-- C8 (witness): one / execution serialized before one background tick
raises the / cell from 0 to 1. -/
theorem counter_increases_by_n_witness :
    counterValue (fun _ => 0)
      (HandlerOutcome.ops (hello ⟨1, 2⟩ 0) ++ (generate_traces_and_metrics_tick ⟨3, 4⟩ ++ []))
      helloKey = 1 := by
  refine counter_increases_by_n 1 1 (fun _ => ⟨1, 2⟩) (fun _ => 0) (fun _ => ⟨3, 4⟩)
    (fun _ => 0) _ ?_
  have h1 := interleaving_seq (generate_traces_and_metrics_tick ⟨3, 4⟩) Interleaving.nil
  have h2 := interleaving_seq (HandlerOutcome.ops (hello ⟨1, 2⟩ 0)) h1
  simpa using h2

/-- C9: the response (body and status code) of each handler is the same
across any two executions, whatever the random draw and the allocated span
context: it is independent of the simulated latency. -/
theorem responses_independent_of_randomness (c1 c2 : SpanContext) (u1 u2 : ℚ) :
    HandlerOutcome.response (hello c1 u1) = HandlerOutcome.response (hello c2 u2) ∧
    HandlerOutcome.response (trigger_error c1) = HandlerOutcome.response (trigger_error c2) ∧
    HandlerOutcome.response (simulate_timeout c1) = HandlerOutcome.response (simulate_timeout c2) ∧
    HandlerOutcome.response (db_failure c1) = HandlerOutcome.response (db_failure c2) :=
  ⟨rfl, rfl, rfl, rfl⟩

/-- C10: in /error the division 1 / 0 always raises ZeroDivisionError and
in /db-failure the raised ConnectionError is always produced; both handlers
always take their except branch and end with an explicit documented return,
never falling through and never letting an exception escape. -/
theorem simulated_faults_always_caught (ctx : SpanContext) :
    pyDiv 1 0 = .error (.zeroDivisionError "division by zero") ∧
    pyRaise (.connectionError "Unable to connect to MySQL database")
      = .error (.connectionError "Unable to connect to MySQL database") ∧
    HandlerOutcome.isReturned (trigger_error ctx) = true ∧
    HandlerOutcome.isReturned (db_failure ctx) = true ∧
    HandlerOutcome.response (trigger_error ctx)
      = some ⟨"Simulated error occurred!", 500⟩ ∧
    HandlerOutcome.response (db_failure ctx)
      = some ⟨"Database connection error simulated", 500⟩ :=
  ⟨rfl, rfl, rfl, rfl, rfl, rfl⟩
